import Mathlib

/-!
Verification development for the `oxasl` correction/registration orchestration
layer (`oxasl/corrections.py` and `oxasl/reg.py`).

Modelling conventions
=====================

* Images are modelled symbolically by the inductive type `Img`: each external
  numerical tool (FLIRT, TOPUP, EPI_REG, convertwarp, applyxfm, applywarp,
  brain extraction, tissue segmentation) is an opaque deterministic solver, so
  its output is represented as a constructor applied to the exact arguments the
  source code passes to it.  Pure numpy operations on image data
  (`np.stack`, voxel-wise division, `np.reciprocal`, multiplication by a
  Jacobian, `Image.derived`) are likewise constructors.
* `4x4` affine matrices are `Matrix (Fin 4) (Fin 4) ℚ`; `np.linalg.inv` is
  modelled exactly by `linalg_inv` (inverse via adjugate and determinant).
* External matrix-valued estimates (the `omat` of FLIRT, the `out` matrix of
  EPI_REG, the per-volume `MAT_%04i` matrices of MCFLIRT) are parameters of the
  stage functions: each stage is a function of both the workspace and of
  whatever the external estimator returned.
* The `Workspace` object of the `oxasl` core (not part of the two source
  files) is modelled as the flat record `Wsp` of lazily populated optional
  nodes: reading an attribute that was never written yields `none`
  (the spec: reads of unset attributes resolve to an "absent" sentinel and
  reads do not cross scope boundaries).  The `reg` sub-workspace attributes
  are the `reg_`-prefixed fields; top-level attributes of the same name are
  separate fields, exactly as in the source.  `isdone`/`done` are the stage
  idempotency flag operations.  Logging and report generation are explicitly
  out of scope of the spec and are not modelled; all other side effects are.
* `extCalls` instruments the number of invocations of expensive external
  tools, and `topup_datain_used` records the phase-encoding parameter table
  last passed to TOPUP; both are pure bookkeeping added to state memoization
  properties, they alter no modelled behaviour.
* Code paths on which Python raises an exception (attribute access on `None`,
  dictionary `KeyError`, string formatting with `None`) return `Except.error`;
  everything else returns `Except.ok` of the updated workspace.
-/

/-- 4x4 affine transformation matrices over exact rationals. -/
abbrev Mat4 := Matrix (Fin 4) (Fin 4) ℚ

/-- Model of `np.linalg.inv` for 4x4 matrices: the exact inverse, computed as
`det⁻¹ • adjugate`.  Agrees with the matrix inverse whenever the determinant is
non-zero. -/
def linalg_inv (A : Mat4) : Mat4 := A.det⁻¹ • A.adjugate

theorem mul_linalg_inv (A : Mat4) (h : A.det ≠ 0) : A * linalg_inv A = 1 := by
  unfold linalg_inv
  rw [Matrix.mul_smul, Matrix.mul_adjugate, smul_smul, inv_mul_cancel₀ h, one_smul]

/-- Symbolic image values.  Constructors record either a pure numpy operation
on image data or the output of an opaque external tool together with the
arguments the source passes to it. -/
inductive Img where
  /-- A named input image supplied to the pipeline. -/
  | base (name : String)
  /-- `np.stack((a.data, b.data), axis=-1)` wrapped in `Image` (corrections.py:116). -/
  | stack (a b : Img)
  /-- `asldata.mean()` of a 4D series. -/
  | meanImg (a : Img)
  /-- Brain extraction `brain.brain(wsp, img, thresh)` (module `oxasl.brain`,
  not in the sources; modelled from the spec's brain-extractor contract
  `extract(image, threshold) -> brain_image`). -/
  | brainx (a : Img) (thresh : ℚ)
  /-- Voxel-wise division `Image(calib.data / cref.data)` (corrections.py:281). -/
  | divImg (a b : Img)
  /-- `Image(np.reciprocal(bias.data))` (corrections.py:285). -/
  | recip (a : Img)
  /-- White-matter segmentation of the structural image (module `oxasl.struc`,
  not in the sources; modelled from the spec's tissue-segmenter contract
  `segment(brain_image) -> white_matter_mask`). -/
  | segm (a : Img)
  /-- Registered output image of the two-step FLIRT bootstrap `reg_flirt`. -/
  | flirtOut (img ref : Img)
  /-- `out_warp` of `epi_reg` with the arguments of corrections.py:169. -/
  | epiRegWarp (epi t1 t1brain wmseg inweight : Option Img) (init : Option Mat4)
      (fmap fmapmag fmapmagbrain : Img) (pedir : String) (echospacing : ℚ)
      (nofmapreg : Bool)
  /-- `out` of `fsl.convertwarp(ref=…, warp1=…, postmat=…, rel=True)`
  (corrections.py:174). -/
  | convertwarpOut (ref : Option Img) (warp1 : Img) (postmat : Mat4)
  /-- `out` of `fsl.applyxfm(img, ref, mat, interp="trilinear")`. -/
  | applyxfmOut (img : Img) (ref : Option Img) (mat : Option Mat4)
  /-- `out` of `fsl.applywarp(img, ref, warp=…, premat=…, interp="sinc",
  paddingsize=1, rel=True)` (corrections.py:388); `premat` is either the
  per-volume motion matrix block or a single matrix. -/
  | applywarpOut (img ref warp : Option Img) (premat : Option (List Mat4 ⊕ Mat4))
  /-- `asldata_orig.derived(data)`: same metadata, new data (corrections.py:350). -/
  | derived (orig data : Img)
  /-- `Image(img.data * jacobian.data)` (corrections.py:392). -/
  | jacmul (a j : Img)

/-- The linear pre-transform argument of `correct_img`: either the
concatenated per-volume motion matrices or a single calibration matrix. -/
abbrev LinXfm := List Mat4 ⊕ Mat4

/-- One row of the TOPUP phase-encoding parameter table: three direction
components and one time value (the effective echo spacing). -/
structure PeRow where
  dx : Int
  dy : Int
  dz : Int
  t : ℚ
deriving DecidableEq

/-- The fixed per-direction sign-convention dictionary `topup_params` of
`get_cblip_correction` (corrections.py:105-112), before `%` substitution of
the echo spacing: six phase-encode directions (three axes, each with ± sign),
each mapping to a two-row block of direction components.  A key outside the
dictionary is a Python `KeyError`, modelled by `none`. -/
def topup_params (pedir : String) : Option (List (Int × Int × Int)) :=
  match pedir with
  | "x"  => some [(1, 0, 0), (-1, 0, 0)]
  | "-x" => some [(-1, 0, 0), (1, 0, 0)]
  | "y"  => some [(0, 1, 0), (0, -1, 0)]
  | "-y" => some [(0, -1, 0), (0, 1, 0)]
  | "z"  => some [(0, 0, 1), (0, 0, -1)]
  | "-z" => some [(0, 0, -1), (0, 0, 1)]
  | _    => none

/-- The substituted parameter table
`topup_params[wsp.pedir] % (wsp.echospacing, wsp.echospacing)`
(corrections.py:113): each row of the direction block extended with the echo
spacing as its time entry. -/
def topup_datain (pedir : String) (echospacing : ℚ) : Option (List PeRow) :=
  (topup_params pedir).map (List.map fun r => ⟨r.1, r.2.1, r.2.2, echospacing⟩)

/-- Flat model of the lazily populated oxasl `Workspace` as visible from the
two source files.  Every image/matrix node is `Option`-valued: `none` is the
"absent" sentinel returned when reading a never-written attribute.  Fields
keep the source attribute names; attributes of the `reg` sub-workspace carry a
`reg_` prefix (`wsp.reg.regfrom` is `reg_regfrom`, distinct from the top-level
user-supplied `wsp.regfrom`).  The stage-done flags live in `done_stages`
(the Python `Workspace.isdone`/`Workspace.done` methods are `Wsp.isdone` and
`Wsp.done`). -/
structure Wsp where
  /-- ASL data image (`wsp.asldata`). -/
  asldata : Option Img := none
  /-- Uncorrected ASL data (`wsp.asldata_orig`). -/
  asldata_orig : Option Img := none
  /-- Mean ASL image used as reference grid (`wsp.asldata_mean`). -/
  asldata_mean : Option Img := none
  /-- `wsp.asldata.shape[3]`: the number of volumes of the ASL series. -/
  nvols : Nat := 0
  /-- `wsp.asldata.iaf`: acquisition form metadata ("tc", "ct", ...). -/
  iaf : String := ""
  calib : Option Img := none
  calib_orig : Option Img := none
  cref : Option Img := none
  cref_orig : Option Img := none
  cblip : Option Img := none
  cblip_orig : Option Img := none
  /-- Read at corrections.py:360 but never written anywhere in the sources. -/
  cref_cblip : Option Img := none
  calib_blipped : Option Img := none
  pedir : Option String := none
  echospacing : Option ℚ := none
  fmap : Option Img := none
  fmapmag : Option Img := none
  fmapmagbrain : Option Img := none
  nofmapreg : Option Bool := none
  inweight : Option Img := none
  pwi : Option Img := none
  /-- The structural image.  reg.py reads it through the structural
  sub-workspace (`wsp.structural.struc`, populated by `struc.init` which is
  outside the sources) and corrections.py reads `wsp.struc`; both views of the
  one structural image node are modelled by this single field. -/
  struc : Option Img := none
  struc_brain : Option Img := none
  wm_seg_struc : Option Img := none
  /-- Documented output of `get_cblip_correction`; never written by the code. -/
  cblip_warp : Option Img := none
  fmap_warp_struc : Option Img := none
  fmap_asl2struc : Option Mat4 := none
  fmap_struc2asl : Option Mat4 := none
  fmap_warp : Option Img := none
  gdc_warp : Option Img := none
  /-- Read by `correct_img`; never written anywhere in the sources. -/
  total_warp : Option Img := none
  jacobian : Option Img := none
  /-- Per-volume motion correction matrices (the `(4*nvols, 4)` concatenation
  is modelled as the list of its 4x4 blocks). -/
  asldata_mc_mats : Option (List Mat4) := none
  /-- Top-level `wsp.asl2calib` written by `get_motion_correction`. -/
  asl2calib : Option Mat4 := none
  /-- Top-level `wsp.calib2asl` written by `get_motion_correction`. -/
  calib2asl : Option Mat4 := none
  isen : Option Img := none
  /-- Flag options: the Workspace resolves an unset flag to `None`, which is
  falsy, so flags are modelled as `Bool` with default `false`. -/
  senscorr_auto : Bool := false
  senscorr_off : Bool := false
  bias : Option Img := none
  sensitivity : Option Img := none
  /-- Top-level `wsp.regfrom`: the user-supplied registration reference. -/
  regfrom : Option Img := none
  /-- Top-level `wsp.asl2struc` (read at corrections.py:160; the registration
  stage writes `wsp.reg.asl2struc`, a different node). -/
  asl2struc : Option Mat4 := none
  /-- Top-level `wsp.struc2asl` (read at corrections.py:287; the registration
  stage writes `wsp.reg.struc2asl`, a different node). -/
  struc2asl : Option Mat4 := none
  reg_regfrom : Option Img := none
  reg_regto : Option Img := none
  reg_asl2calib : Option Mat4 := none
  reg_calib2asl : Option Mat4 := none
  reg_asl2struc : Option Mat4 := none
  reg_struc2asl : Option Mat4 := none
  /-- Names of the pipeline stages marked complete. -/
  done_stages : List String := []
  /-- Instrumentation: number of external-tool invocations so far. -/
  extCalls : Nat := 0
  /-- Instrumentation: `datain` table last passed to `fsl.topup`. -/
  topup_datain_used : Option (List PeRow) := none

/-- `Workspace.isdone(name)`: is the stage flagged complete? -/
def Wsp.isdone (w : Wsp) (stage : String) : Bool :=
  w.done_stages.contains stage

/-- `Workspace.done(name)`: flag a stage complete. -/
def Wsp.done (w : Wsp) (stage : String) : Wsp :=
  { w with done_stages := stage :: w.done_stages }

theorem isdone_done_self (w : Wsp) (s : String) : (w.done s).isdone s = true := by
  simp [Wsp.isdone, Wsp.done]

theorem isdone_done_of_isdone (w : Wsp) (s s' : String) (h : w.isdone s = true) :
    (w.done s').isdone s = true := by
  simp only [Wsp.isdone, Wsp.done, List.contains_cons, Bool.or_eq_true]
  exact Or.inr h

/-! ## Stage functions of `oxasl/corrections.py` and `oxasl/reg.py` -/

/-- `struc.segment(wsp)` (module `oxasl.struc`, not in the sources).
Modelled from the spec: the tissue-segmentation stage
(`segment(brain_image) -> white_matter_mask`, spec section 6), idempotent per
the staged-computation contract of spec section 4.1; it produces the
white-matter segmentation in structural space, read back by corrections.py:169
as `wsp.wm_seg_struc`, from the structural image when not already present. -/
def struc_segment (w : Wsp) : Wsp :=
  match w.wm_seg_struc, w.struc with
  | none, some s =>
      { w with wm_seg_struc := some (.segm s), extCalls := w.extCalls + 1 }
  | _, _ => w

/-- `reg.get_regfrom(wsp)` (reg.py:28-60): choose the registration reference
image with first-match precedence (user-supplied `wsp.regfrom`, else
brain-extracted mean ASL when the acquisition interleaves tag/control, else
brain-extracted calibration image, else brain-extracted mean ASL).  Accessing
`wsp.asldata.iaf` with `asldata` absent is a Python `AttributeError`. -/
def get_regfrom (w : Wsp) : Except String Wsp :=
  match w.reg_regfrom with
  | some _ => .ok w
  | none =>
    match w.regfrom with
    | some rf => .ok { w with reg_regfrom := some rf }
    | none =>
      match w.asldata with
      | none => .error "AttributeError: asldata is None"
      | some asl =>
        if w.iaf = "tc" ∨ w.iaf = "ct" then
          .ok { w with reg_regfrom := some (.brainx (.meanImg asl) (1/5)),
                       extCalls := w.extCalls + 1 }
        else
          match w.calib with
          | some c =>
              .ok { w with reg_regfrom := some (.brainx c (1/5)),
                           extCalls := w.extCalls + 1 }
          | none =>
              .ok { w with reg_regfrom := some (.brainx (.meanImg asl) (1/5)),
                           extCalls := w.extCalls + 1 }

/-- `reg.reg_flirt(wsp, img, ref, initial_transform)` (reg.py:209-248): the
two-step FLIRT bootstrap (translation-only search, then full-DOF search seeded
by step 1).  Both steps are external FLIRT invocations; the resulting `omat`
is the external estimate `flirtMat`, the resampled image is symbolic. -/
def reg_flirt (flirtMat : Mat4) (w : Wsp) (img ref : Img) : Wsp × (Img × Mat4) :=
  ({ w with extCalls := w.extCalls + 2 }, (.flirtOut img ref, flirtMat))

/-- `reg.reg_asl2struc(wsp)` (reg.py:75-117) as invoked by the sources
(`flirt=True`, `bbr=False`): when a structural image exists, ensure a
registration reference, run the FLIRT bootstrap and store
`wsp.reg.asl2struc`, its exact inverse `wsp.reg.struc2asl` and the registered
image `wsp.reg.regto`.  `flirtMat` is the matrix the external FLIRT
estimation returned. -/
def reg_asl2struc (flirtMat : Mat4) (w : Wsp) : Except String Wsp :=
  match w.struc with
  | none => .ok w
  | some strucImg =>
    match get_regfrom w with
    | .error e => .error e
    | .ok w1 =>
      -- `get_regfrom` has just ensured `wsp.reg.regfrom` is set
      let rf := w1.reg_regfrom.getD (.base "regfrom")
      let (w2, res) := reg_flirt flirtMat w1 rf strucImg
      .ok { w2 with reg_regto := some res.1,
                    reg_asl2struc := some res.2,
                    reg_struc2asl := some (linalg_inv res.2) }

/-- `reg.transform(wsp, img, trans, ref, use_applywarp, ...)`
(reg.py:188-207): raises `ValueError` when the transformation matrix is
absent, otherwise one external resampling call (`applyxfm`, or `applywarp`
when requested). -/
def transform (_wsp : Wsp) (img : Img) (trans : Option Mat4) (ref : Option Img)
    (use_applywarp : Bool := false) : Except String Img :=
  -- the workspace argument is used for logging only (reg.py:192)
  match trans with
  | none => .error "Transformation matrix not available - has registration been performed?"
  | some t =>
    if use_applywarp then
      .ok (.applywarpOut (some img) ref none (some (.inr t)))
    else
      .ok (.applyxfmOut img ref (some t))

/-- `reg.struc2asl(wsp, img)` (reg.py:166-174): convert an image from
structural to ASL space through `transform` with `wsp.reg.struc2asl` and
reference `wsp.reg.regfrom`.  The returned workspace is the input workspace:
the function only initialises the (possibly empty) `reg` sub-scope and never
writes any node nor triggers registration. -/
def struc2asl (w : Wsp) (img : Img) : Except String (Wsp × Img) :=
  match transform w img w.reg_struc2asl w.reg_regfrom with
  | .error e => .error e
  | .ok out => .ok (w, out)

/-- `reg.asl2struc(wsp, img)` (reg.py:176-186): convert an image from ASL to
structural space through `transform` with `wsp.reg.asl2struc` and reference
the structural image; like `struc2asl` it never writes any node. -/
def asl2struc (w : Wsp) (img : Img) : Except String (Wsp × Img) :=
  match transform w img w.reg_asl2struc w.struc with
  | .error e => .error e
  | .ok out => .ok (w, out)

/-- `get_cblip_correction(wsp)` (corrections.py:79-118): guarded by the
`"get_cblip_correction"` done flag; looks up the phase-encoding block for
`wsp.pedir` in the fixed dictionary, substitutes the echo spacing, stacks the
calibration image and its phase-encode-reversed twin into `wsp.calib_blipped`
and invokes the external TOPUP field estimator — whose result it discards:
the documented output node `cblip_warp` is never written.  Finally marks the
stage done. -/
def get_cblip_correction (w : Wsp) : Except String Wsp :=
  if w.isdone "get_cblip_correction" then .ok w
  else
    match w.pedir with
    | none => .error "KeyError: None is not a phase encoding direction"
    | some pd =>
      match topup_params pd with
      | none => .error "KeyError: invalid phase encoding direction"
      | some block =>
        match w.echospacing with
        | none => .error "TypeError: float formatting of None echospacing"
        | some es =>
          let params : List PeRow := block.map fun r => ⟨r.1, r.2.1, r.2.2, es⟩
          match w.calib, w.cblip with
          | some c, some b =>
            let w1 := { w with calib_blipped := some (.stack c b) }
            -- fsl.topup(imain=wsp.calib_blipped, datain=params, ...):
            -- `topup_result` is assigned to a local and never stored
            let w2 := { w1 with extCalls := w1.extCalls + 1,
                                topup_datain_used := some params }
            .ok (w2.done "get_cblip_correction")
          | _, _ => .error "AttributeError: calib or cblip is None"

/-- `get_fieldmap_correction(wsp)` (corrections.py:120-177): guarded by the
`"get_fieldmap_correction"` done flag.  When any of the fieldmap images is
absent, or pedir/echospacing is absent, the stage only logs — but it still
marks itself done.  Otherwise it triggers registration and segmentation, runs
the external EPI_REG fieldmap estimation (warp `out_warp` and refined affine
`out`, the latter being the external estimate `epiRegMat`), inverts the
affine and converts the structural-space warp into the ASL-space warp
`fmap_warp`.  `flirtMat` parameterises the FLIRT estimate used by the inner
`reg.reg_asl2struc` call. -/
def get_fieldmap_correction (flirtMat epiRegMat : Mat4) (w : Wsp) :
    Except String Wsp :=
  if w.isdone "get_fieldmap_correction" then .ok w
  else
    match w.fmap, w.fmapmag, w.fmapmagbrain with
    | some fmapI, some fmagI, some fmagbI =>
      match w.pedir, w.echospacing with
      | some pd, some es =>
        match reg_asl2struc flirtMat w with
        | .error e => .error e
        | .ok w1 =>
          let w2 := struc_segment w1
          let warpStruc : Img :=
            .epiRegWarp w2.pwi w2.struc w2.struc_brain w2.wm_seg_struc
              w2.inweight w2.asl2struc fmapI fmagI fmagbI pd es
              (w2.nofmapreg.getD false)
          let s2a := linalg_inv epiRegMat
          let w3 := { w2 with extCalls := w2.extCalls + 1,
                              fmap_warp_struc := some warpStruc,
                              fmap_asl2struc := some epiRegMat,
                              fmap_struc2asl := some s2a }
          let w4 := { w3 with extCalls := w3.extCalls + 1,
                              fmap_warp :=
                                some (.convertwarpOut w3.asldata_mean warpStruc s2a) }
          .ok (w4.done "get_fieldmap_correction")
      | _, _ =>
        -- "WARNING: Fieldmap images supplied but pedir and echospacing required"
        .ok (w.done "get_fieldmap_correction")
    | _, _, _ =>
      -- "No fieldmap images for distortion correction"
      .ok (w.done "get_fieldmap_correction")

/-- `get_motion_correction(wsp)` (corrections.py:179-248): guarded by the
`"get_motion_correction"` done flag.  Runs external MCFLIRT on the ASL series
(`mc reffile vol` is the external per-volume estimate `MAT_%04i`, with
`reffile` the calibration image when present).  With a calibration reference
the middle-volume matrix (index `int(float(nvols)/2)`, i.e. `nvols / 2`)
becomes `wsp.asl2calib`, its inverse `wsp.calib2asl`, and every per-volume
matrix is right-multiplied (`np.dot(mat, calib2asl)`) to re-center the set on
the middle ASL volume.  An empty series is a Python error (`mats[...]` index
error / `np.concatenate` of an empty sequence). -/
def get_motion_correction (mc : Option Img → Nat → Mat4) (w : Wsp) :
    Except String Wsp :=
  if w.isdone "get_motion_correction" then .ok w
  else
    match w.asldata with
    | none => .error "AttributeError: asldata is None"
    | some _ =>
      if w.nvols = 0 then .error "IndexError: empty ASL series"
      else
        match w.calib with
        | some calibImg =>
          let mats := (List.range w.nvols).map (mc (some calibImg))
          let a2c := mats.getD (w.nvols / 2) 1
          let c2a := linalg_inv a2c
          let mats2 := mats.map fun m => m * c2a
          .ok (({ w with asl2calib := some a2c, calib2asl := some c2a,
                         asldata_mc_mats := some mats2,
                         extCalls := w.extCalls + 1 }).done "get_motion_correction")
        | none =>
          let mats := (List.range w.nvols).map (mc none)
          .ok (({ w with asldata_mc_mats := some mats,
                         extCalls := w.extCalls + 1 }).done "get_motion_correction")

/-- `get_sensitivity_correction(wsp)` (corrections.py:250-290): guarded not by
a done flag but by the `sensitivity` output node being unset.  First-match
precedence: disable flag, user-supplied image (which the code logs but —
unlike its documentation — never stores), calibration/calibration-reference
voxel-wise division, reciprocal of the bias field resampled into ASL space
(via the top-level `wsp.struc2asl` and `wsp.regfrom` attributes), else
nothing.  `flirtMat` parameterises the FLIRT estimate of the inner
`reg.reg_asl2struc` call of the automatic branch. -/
def get_sensitivity_correction (flirtMat : Mat4) (w : Wsp) : Except String Wsp :=
  match w.sensitivity with
  | some _ => .ok w
  | none =>
    if w.senscorr_off then .ok w
    else
      match w.isen with
      | some _ =>
        -- logs "Sensitivity image supplied by user" but assigns nothing
        .ok w
      | none =>
        match w.calib, w.cref with
        | some c, some r => .ok { w with sensitivity := some (.divImg c r) }
        | _, _ =>
          match w.senscorr_auto, w.bias with
          | true, some b =>
            -- struc.segment(wsp); sens := reciprocal of the bias field;
            -- reg.reg_asl2struc(wsp); applyxfm(sens, wsp.regfrom, wsp.struc2asl)
            match reg_asl2struc flirtMat (struc_segment w) with
            | .error e => .error e
            | .ok w2 =>
              .ok { w2 with extCalls := w2.extCalls + 1,
                            sensitivity :=
                              some (.applyxfmOut (.recip b) w2.regfrom w2.struc2asl) }
          | _, _ =>
            -- "No source of sensitivity correction was found"
            .ok w

/-- `correct_img(wsp, img, linear_mat)` (corrections.py:364-393): one external
`applywarp` resampling of `img` onto the mean-ASL reference grid with the
combined warp `wsp.total_warp` and the linear pre-transform, followed by
voxel-wise Jacobian intensity correction when `wsp.jacobian` is set. -/
def correct_img (w : Wsp) (img : Option Img) (linear_mat : Option LinXfm) :
    Wsp × Img :=
  let out : Img := .applywarpOut img w.asldata_mean w.total_warp linear_mat
  let w1 := { w with extCalls := w.extCalls + 1 }
  match w.jacobian with
  | some j => (w1, .jacmul out j)
  | none => (w1, out)

/-- `apply_corrections(wsp)` (corrections.py:292-362): gather the active warps
(fieldmap-based and user-supplied gradient-distortion), convert them to a
single transform when any is active (output and Jacobian are discarded —
`FIXME save jacobian`), return with no output node written when neither warps
nor motion matrices are active, and otherwise resample the ASL data and each
present calibration image once.  The corrected `cblip` node is produced from
`wsp.cref_cblip` — an attribute never written anywhere — rather than from
`wsp.cblip_orig`. -/
def apply_corrections (w : Wsp) : Except String Wsp :=
  let warps : List Img :=
    (match w.fmap_warp with | some f => [f] | none => []) ++
    (match w.gdc_warp with | some g => [g] | none => [])
  -- fsl.convertwarp(ref=…, warp1=…, …, jacobian=fsl.LOAD): result discarded
  let w1 := if warps.isEmpty then w else { w with extCalls := w.extCalls + 1 }
  if warps.isEmpty ∧ w.asldata_mc_mats = none then
    -- "No corrections to apply"
    .ok w1
  else
    let res := correct_img w1 w1.asldata_orig (w1.asldata_mc_mats.map Sum.inl)
    match w1.asldata_orig with
    | none => .error "AttributeError: asldata_orig is None"
    | some aorig =>
      let w3 := { res.1 with asldata := some (.derived aorig res.2) }
      match w3.calib_orig with
      | none => .ok w3
      | some corig =>
        let resc := correct_img w3 (some corig) (w3.calib2asl.map Sum.inr)
        let w5 := { resc.1 with calib := some resc.2 }
        let w6 :=
          match w5.cref_orig with
          | some crorig =>
            let resr := correct_img w5 (some crorig) (w5.calib2asl.map Sum.inr)
            { resr.1 with cref := some resr.2 }
          | none => w5
        let w7 :=
          match w6.cblip_orig with
          | some _ =>
            -- BUG (spec section 9): source node is wsp.cref_cblip, not cblip_orig
            let resb := correct_img w6 w6.cref_cblip (w6.calib2asl.map Sum.inr)
            { resb.1 with cblip := some resb.2 }
          | none => w6
        .ok w7

/-! ## Claim theorems -/

theorem getD_range_map {α : Type} (f : Nat → α) {n i : Nat} (h : i < n) (d : α) :
    ((List.range n).map f).getD i d = f i := by
  simp [List.getD_eq_getElem?_getD, List.getElem?_map, List.getElem?_range h]

/-- Claim C7: for phase-encode direction "-y" and echo spacing 0.005, the
phase-encoding parameter table passed to TOPUP by `get_cblip_correction`
consists of exactly the two rows `0 -1 0 0.005` and `0 1 0 0.005`, following
the fixed sign-convention dictionary covering the six signed directions
(x, -x, y, -y, z, -z). -/
theorem C7_topup_param_table :
    topup_datain "-y" (5/1000) = some [⟨0, -1, 0, 5/1000⟩, ⟨0, 1, 0, 5/1000⟩] ∧
    topup_datain "x" (5/1000) = some [⟨1, 0, 0, 5/1000⟩, ⟨-1, 0, 0, 5/1000⟩] ∧
    topup_datain "-x" (5/1000) = some [⟨-1, 0, 0, 5/1000⟩, ⟨1, 0, 0, 5/1000⟩] ∧
    topup_datain "y" (5/1000) = some [⟨0, 1, 0, 5/1000⟩, ⟨0, -1, 0, 5/1000⟩] ∧
    topup_datain "z" (5/1000) = some [⟨0, 0, 1, 5/1000⟩, ⟨0, 0, -1, 5/1000⟩] ∧
    topup_datain "-z" (5/1000) = some [⟨0, 0, -1, 5/1000⟩, ⟨0, 0, 1, 5/1000⟩] ∧
    (get_cblip_correction { calib := some (.base "calib"),
                            cblip := some (.base "cblip"),
                            pedir := some "-y",
                            echospacing := some (5/1000) }).map
        (fun w => w.topup_datain_used) =
      .ok (some [⟨0, -1, 0, 5/1000⟩, ⟨0, 1, 0, 5/1000⟩]) := by
  refine ⟨rfl, rfl, rfl, rfl, rfl, rfl, rfl⟩

/-- Claim C3: when no motion-correction matrices and no distortion warp
(`fmap_warp` or `gdc_warp`) are active, `apply_corrections` returns the
workspace unchanged: no resampler call is made (`extCalls` unchanged) and no
corrected-image node (`asldata`, `calib`, `cref`, `cblip`) is written. -/
theorem C3_apply_corrections_noop (w : Wsp) (hmc : w.asldata_mc_mats = none)
    (hfw : w.fmap_warp = none) (hgw : w.gdc_warp = none) :
    apply_corrections w = .ok w := by
  unfold apply_corrections
  rw [hmc, hfw, hgw]
  rfl

theorem C3_apply_corrections_noop_witness :
    apply_corrections {} = .ok ({} : Wsp) ∧ ({} : Wsp).asldata = none ∧
    ({} : Wsp).calib = none ∧ ({} : Wsp).cref = none ∧ ({} : Wsp).cblip = none ∧
    ({} : Wsp).extCalls = 0 :=
  ⟨C3_apply_corrections_noop {} rfl rfl rfl, rfl, rfl, rfl, rfl, rfl⟩

/-- Claim C5: when any of the five fieldmap inputs (`fmap`, `fmapmag`,
`fmapmagbrain`, `pedir`, `echospacing`) is absent, `get_fieldmap_correction`
returns without error, the only change being the done flag, and in particular
never writes the `fmap_warp` node. -/
theorem C5_fieldmap_skip (fm em : Mat4) (w : Wsp)
    (hnd : w.isdone "get_fieldmap_correction" = false)
    (hmiss : w.fmap = none ∨ w.fmapmag = none ∨ w.fmapmagbrain = none ∨
             w.pedir = none ∨ w.echospacing = none) :
    get_fieldmap_correction fm em w = .ok (w.done "get_fieldmap_correction") ∧
    (w.done "get_fieldmap_correction").fmap_warp = w.fmap_warp := by
  refine ⟨?_, rfl⟩
  unfold get_fieldmap_correction
  cases hf : w.fmap <;> cases hm : w.fmapmag <;> cases hb : w.fmapmagbrain <;>
    cases hp : w.pedir <;> cases he : w.echospacing <;>
      simp_all [hnd]

def wsC5 : Wsp := { fmapmag := some (.base "fmapmag"),
                    fmapmagbrain := some (.base "fmapmagbrain"),
                    pedir := some "y", echospacing := some (5/1000) }

theorem C5_fieldmap_skip_witness :
    get_fieldmap_correction 1 1 wsC5 = .ok (wsC5.done "get_fieldmap_correction") ∧
    (wsC5.done "get_fieldmap_correction").fmap_warp = wsC5.fmap_warp :=
  C5_fieldmap_skip 1 1 wsC5 rfl (Or.inl rfl)

/-- Claim C10: `get_fieldmap_correction` marks its stage done even when it
skips because an input is missing; consequently a later call on the workspace
with all fieldmap inputs supplied returns immediately and the `fmap_warp`
node is never produced. -/
theorem C10_fieldmap_done_traps_skip (fm em : Mat4) (w : Wsp) (f1 f2 f3 : Img)
    (pd : String) (es : ℚ)
    (hnd : w.isdone "get_fieldmap_correction" = false) (hmiss : w.fmap = none) :
    get_fieldmap_correction fm em w = .ok (w.done "get_fieldmap_correction") ∧
    (w.done "get_fieldmap_correction").isdone "get_fieldmap_correction" = true ∧
    get_fieldmap_correction fm em
        { w.done "get_fieldmap_correction" with
          fmap := some f1, fmapmag := some f2, fmapmagbrain := some f3,
          pedir := some pd, echospacing := some es } =
      .ok { w.done "get_fieldmap_correction" with
            fmap := some f1, fmapmag := some f2, fmapmagbrain := some f3,
            pedir := some pd, echospacing := some es } ∧
    ({ w.done "get_fieldmap_correction" with
       fmap := some f1, fmapmag := some f2, fmapmagbrain := some f3,
       pedir := some pd, echospacing := some es } : Wsp).fmap_warp = w.fmap_warp := by
  refine ⟨?_, isdone_done_self w _, ?_, rfl⟩
  · unfold get_fieldmap_correction
    rw [hmiss, hnd]
    rfl
  · unfold get_fieldmap_correction
    have hd : ({ w.done "get_fieldmap_correction" with
                 fmap := some f1, fmapmag := some f2, fmapmagbrain := some f3,
                 pedir := some pd, echospacing := some es } : Wsp).isdone
                "get_fieldmap_correction" = true := isdone_done_self w _
    rw [hd]
    rfl

def wsC10 : Wsp := {}

theorem C10_fieldmap_done_traps_skip_witness :
    get_fieldmap_correction 1 1 wsC10 = .ok (wsC10.done "get_fieldmap_correction") ∧
    (wsC10.done "get_fieldmap_correction").isdone "get_fieldmap_correction" = true ∧
    get_fieldmap_correction 1 1
        { wsC10.done "get_fieldmap_correction" with
          fmap := some (.base "fmap"), fmapmag := some (.base "fmapmag"),
          fmapmagbrain := some (.base "fmapmagbrain"),
          pedir := some "-y", echospacing := some (5/1000) } =
      .ok { wsC10.done "get_fieldmap_correction" with
            fmap := some (.base "fmap"), fmapmag := some (.base "fmapmag"),
            fmapmagbrain := some (.base "fmapmagbrain"),
            pedir := some "-y", echospacing := some (5/1000) } ∧
    ({ wsC10.done "get_fieldmap_correction" with
       fmap := some (.base "fmap"), fmapmag := some (.base "fmapmag"),
       fmapmagbrain := some (.base "fmapmagbrain"),
       pedir := some "-y", echospacing := some (5/1000) } : Wsp).fmap_warp =
      wsC10.fmap_warp :=
  C10_fieldmap_done_traps_skip 1 1 wsC10 (.base "fmap") (.base "fmapmag")
    (.base "fmapmagbrain") "-y" (5/1000) rfl rfl

/-- Claim C9: the transform-chain functions `struc2asl` and `asl2struc` fail
with the configuration `ValueError` when the needed registration matrix has
not been computed, and on success they return the workspace untouched — they
never trigger the registration computation themselves. -/
theorem C9_transform_chain_requires_matrix (w : Wsp) (img : Img) :
    (w.reg_struc2asl = none →
      struc2asl w img =
        .error "Transformation matrix not available - has registration been performed?") ∧
    (w.reg_asl2struc = none →
      asl2struc w img =
        .error "Transformation matrix not available - has registration been performed?") ∧
    (∀ w' out, struc2asl w img = .ok (w', out) → w' = w) ∧
    (∀ w' out, asl2struc w img = .ok (w', out) → w' = w) := by
  refine ⟨fun h => ?_, fun h => ?_, fun w' out h => ?_, fun w' out h => ?_⟩
  · simp [struc2asl, transform, h]
  · simp [asl2struc, transform, h]
  · unfold struc2asl at h
    rcases ht : transform w img w.reg_struc2asl w.reg_regfrom with e | o <;>
      rw [ht] at h <;> simp_all
  · unfold asl2struc at h
    rcases ht : transform w img w.reg_asl2struc w.struc with e | o <;>
      rw [ht] at h <;> simp_all

def wsC9 : Wsp := { struc := some (.base "struc"), asldata := some (.base "asl") }

theorem C9_transform_chain_requires_matrix_witness :
    struc2asl wsC9 (.base "img") =
      .error "Transformation matrix not available - has registration been performed?" ∧
    asl2struc wsC9 (.base "img") =
      .error "Transformation matrix not available - has registration been performed?" :=
  ⟨(C9_transform_chain_requires_matrix wsC9 (.base "img")).1 rfl,
   (C9_transform_chain_requires_matrix wsC9 (.base "img")).2.1 rfl⟩

def wsC4 : Wsp := { calib := some (.base "calib"), cblip := some (.base "cblip"),
                    pedir := some "y", echospacing := some (5/1000) }

def wsC4res : Wsp :=
  { wsC4 with calib_blipped := some (.stack (.base "calib") (.base "cblip")),
              extCalls := 1,
              topup_datain_used := some [⟨0, 1, 0, 5/1000⟩, ⟨0, -1, 0, 5/1000⟩],
              done_stages := ["get_cblip_correction"] }

/-- Claim C4 (code bug): on a workspace supplying `calib`, `cblip`, `pedir`
and `echospacing`, `get_cblip_correction` stacks the two images and invokes
the external field estimator (`extCalls` grows), but — contrary to the claim
and to the function's own docstring ("Updated workspace attributes:
`cblip_warp`") — it discards the TOPUP result: the stage is marked done while
the `cblip_warp` node is never written. -/
theorem C4_cblip_warp_never_written :
    get_cblip_correction wsC4 = .ok wsC4res ∧
    wsC4res.cblip_warp = none ∧
    wsC4res.isdone "get_cblip_correction" = true ∧
    wsC4res.extCalls = wsC4.extCalls + 1 ∧
    wsC4res.calib_blipped = some (.stack (.base "calib") (.base "cblip")) :=
  ⟨rfl, rfl, rfl, rfl, rfl⟩

def wsC6 : Wsp := { isen := some (.base "isen") }

/-- Claim C6 (code bug): the precedence chain of `get_sensitivity_correction`
is: disable flag, user-supplied image, calib/cref division, reciprocal bias
field, none — but in the user-supplied branch the code only logs and never
assigns the node; contrary to the claim (and the function's documented
`sensitivity` output), a workspace whose only source is `isen` comes back
completely unchanged, with `sensitivity` still unset. -/
theorem C6_user_sensitivity_not_stored :
    get_sensitivity_correction 1 wsC6 = .ok wsC6 ∧
    wsC6.sensitivity = none ∧
    wsC6.isen = some (.base "isen") ∧
    wsC6.senscorr_off = false :=
  ⟨rfl, rfl, rfl, rfl⟩

def wsC8 : Wsp := { asldata_orig := some (.base "asl"),
                    asldata_mean := some (.base "asl_mean"),
                    asldata_mc_mats := some [1, 1],
                    calib2asl := some 1,
                    calib_orig := some (.base "calib"),
                    cref_orig := some (.base "cref"),
                    cblip_orig := some (.base "cblip") }

/-- Claim C8 (code bug): with corrections active and a phase-reversed
calibration image present, `apply_corrections` produces the corrected `cblip`
node by resampling `wsp.cref_cblip` — an attribute never written anywhere, so
the absent sentinel — instead of the original phase-reversed calibration
image `wsp.cblip_orig` that the claim (and spec section 9's latent-defect
note) says is intended.  The resampler source below is `none` although
`cblip_orig` holds an image. -/
theorem C8_cblip_corrected_from_absent_node :
    (apply_corrections wsC8).map (fun w => w.cblip) =
      .ok (some (.applywarpOut none (some (.base "asl_mean")) none (some (.inr 1)))) ∧
    wsC8.cref_cblip = none ∧
    wsC8.cblip_orig = some (.base "cblip") :=
  ⟨rfl, rfl, rfl⟩

/-- Claim C2: with a calibration image present and a non-empty ASL series,
`get_motion_correction` sets `asl2calib` to the external estimate for the
middle volume (index `nvols / 2`, the integer floor of half the volume
count), right-multiplies every per-volume matrix by the inverse of
`asl2calib`, and the re-centered matrix of the middle volume is exactly the
identity (the model works over exact rationals, so "within numerical
tolerance" becomes exact equality, granted the estimated middle-volume matrix
is invertible — rigid-body matrices always are). -/
theorem C2_motion_recenter (mc : Option Img → Nat → Mat4) (w : Wsp) (c a : Img)
    (hnd : w.isdone "get_motion_correction" = false)
    (hc : w.calib = some c) (ha : w.asldata = some a) (hn : 0 < w.nvols)
    (hdet : (mc (some c) (w.nvols / 2)).det ≠ 0) :
    ∃ w', get_motion_correction mc w = .ok w' ∧
      w'.asl2calib = some (mc (some c) (w.nvols / 2)) ∧
      w'.asldata_mc_mats =
        some (((List.range w.nvols).map (mc (some c))).map
          (fun m => m * linalg_inv (mc (some c) (w.nvols / 2)))) ∧
      (w'.asldata_mc_mats.getD []).getD (w.nvols / 2) 1 = 1 := by
  have hlt : w.nvols / 2 < w.nvols := Nat.div_lt_self hn one_lt_two
  have hmid : ((List.range w.nvols).map (mc (some c))).getD (w.nvols / 2) 1
      = mc (some c) (w.nvols / 2) := getD_range_map _ hlt 1
  refine ⟨({ w with
      asl2calib := some (mc (some c) (w.nvols / 2)),
      calib2asl := some (linalg_inv (mc (some c) (w.nvols / 2))),
      asldata_mc_mats := some (((List.range w.nvols).map (mc (some c))).map
        (fun m => m * linalg_inv (mc (some c) (w.nvols / 2)))),
      extCalls := w.extCalls + 1 }).done "get_motion_correction", ?_, ?_, ?_, ?_⟩
  · unfold get_motion_correction
    rw [hnd, ha, hc]
    simp only [if_neg hn.ne']
    simp only [hmid]
    rfl
  · rfl
  · rfl
  · show (((List.range w.nvols).map (mc (some c))).map
        (fun m => m * linalg_inv (mc (some c) (w.nvols / 2)))).getD (w.nvols / 2) 1 = 1
    rw [List.map_map, getD_range_map _ hlt 1]
    exact mul_linalg_inv _ hdet

def mcC2 : Option Img → Nat → Mat4 := fun _ _ => 1

def wsC2 : Wsp := { asldata := some (.base "asl"), calib := some (.base "calib"),
                    nvols := 4 }

theorem C2_motion_recenter_witness :
    ∃ w', get_motion_correction mcC2 wsC2 = .ok w' ∧
      w'.asl2calib = some (mcC2 (some (.base "calib")) (wsC2.nvols / 2)) ∧
      w'.asldata_mc_mats =
        some (((List.range wsC2.nvols).map (mcC2 (some (.base "calib")))).map
          (fun m => m * linalg_inv (mcC2 (some (.base "calib")) (wsC2.nvols / 2)))) ∧
      (w'.asldata_mc_mats.getD []).getD (wsC2.nvols / 2) 1 = 1 :=
  C2_motion_recenter mcC2 wsC2 (.base "calib") (.base "asl") rfl rfl rfl
    (by norm_num [wsC2])
    (by simp [mcC2, Matrix.det_one])

theorem get_cblip_early (w : Wsp) (hd : w.isdone "get_cblip_correction" = true) :
    get_cblip_correction w = .ok w := by
  unfold get_cblip_correction
  rw [hd]
  rfl

theorem get_fieldmap_early (fm em : Mat4) (w : Wsp)
    (hd : w.isdone "get_fieldmap_correction" = true) :
    get_fieldmap_correction fm em w = .ok w := by
  unfold get_fieldmap_correction
  rw [hd]
  rfl

theorem get_motion_early (mc : Option Img → Nat → Mat4) (w : Wsp)
    (hd : w.isdone "get_motion_correction" = true) :
    get_motion_correction mc w = .ok w := by
  unfold get_motion_correction
  rw [hd]
  rfl

theorem get_sens_set (fm : Mat4) (w : Wsp) (i : Img) (hs : w.sensitivity = some i) :
    get_sensitivity_correction fm w = .ok w := by
  unfold get_sensitivity_correction
  rw [hs]

theorem get_sens_early (fm : Mat4) (w : Wsp) (hs : w.sensitivity.isSome = true) :
    get_sensitivity_correction fm w = .ok w := by
  obtain ⟨i, hi⟩ := Option.isSome_iff_exists.mp hs
  exact get_sens_set fm w i hi

theorem get_cblip_ok_cases (w w' : Wsp) (h : get_cblip_correction w = .ok w') :
    w' = w ∨ w'.isdone "get_cblip_correction" = true := by
  unfold get_cblip_correction at h
  repeat' split at h
  all_goals
    first
      | exact Except.noConfusion h
      | (simp only [Except.ok.injEq] at h
         subst h
         first
           | exact Or.inl rfl
           | exact Or.inr (isdone_done_self _ _))

theorem get_fieldmap_ok_cases (fm em : Mat4) (w w' : Wsp)
    (h : get_fieldmap_correction fm em w = .ok w') :
    w' = w ∨ w'.isdone "get_fieldmap_correction" = true := by
  unfold get_fieldmap_correction at h
  repeat' split at h
  all_goals
    first
      | exact Except.noConfusion h
      | (simp only [Except.ok.injEq] at h
         subst h
         first
           | exact Or.inl rfl
           | exact Or.inr (isdone_done_self _ _))

theorem get_motion_ok_cases (mc : Option Img → Nat → Mat4) (w w' : Wsp)
    (h : get_motion_correction mc w = .ok w') :
    w' = w ∨ w'.isdone "get_motion_correction" = true := by
  unfold get_motion_correction at h
  repeat' split at h
  all_goals
    first
      | exact Except.noConfusion h
      | (simp only [Except.ok.injEq] at h
         subst h
         first
           | exact Or.inl rfl
           | exact Or.inr (isdone_done_self _ _))

theorem get_sens_ok_cases (fm : Mat4) (w w' : Wsp)
    (h : get_sensitivity_correction fm w = .ok w') :
    w' = w ∨ w'.sensitivity.isSome = true := by
  unfold get_sensitivity_correction at h
  repeat' split at h
  all_goals
    first
      | exact Except.noConfusion h
      | (simp only [Except.ok.injEq] at h
         subst h
         first
           | exact Or.inl rfl
           | exact Or.inr rfl)

theorem get_cblip_idem (w w' : Wsp) (h : get_cblip_correction w = .ok w') :
    get_cblip_correction w' = .ok w' := by
  rcases get_cblip_ok_cases w w' h with rfl | hd
  · exact h
  · exact get_cblip_early w' hd

theorem get_fieldmap_idem (fm em : Mat4) (w w' : Wsp)
    (h : get_fieldmap_correction fm em w = .ok w') :
    get_fieldmap_correction fm em w' = .ok w' := by
  rcases get_fieldmap_ok_cases fm em w w' h with rfl | hd
  · exact h
  · exact get_fieldmap_early fm em w' hd

theorem get_motion_idem (mc : Option Img → Nat → Mat4) (w w' : Wsp)
    (h : get_motion_correction mc w = .ok w') :
    get_motion_correction mc w' = .ok w' := by
  rcases get_motion_ok_cases mc w w' h with rfl | hd
  · exact h
  · exact get_motion_early mc w' hd

theorem get_sensitivity_idem (fm : Mat4) (w w' : Wsp)
    (h : get_sensitivity_correction fm w = .ok w') :
    get_sensitivity_correction fm w' = .ok w' := by
  rcases get_sens_ok_cases fm w w' h with rfl | hs
  · exact h
  · exact get_sens_early fm w' hs

def wsC1ce : Wsp := { done_stages := ["get_sensitivity_correction"],
                      calib := some (.base "calib"), cref := some (.base "cref") }

/-- Claim C1 counterexample: the claim, as stated, quantifies over all four
stage functions — but `get_sensitivity_correction` does not begin by checking
`isdone`; on a workspace whose `"get_sensitivity_correction"` stage is marked
done it still performs its work and writes the `sensitivity` output node, so
it does not "return immediately without side effects". -/
theorem C1_counterexample :
    wsC1ce.isdone "get_sensitivity_correction" = true ∧
    get_sensitivity_correction 1 wsC1ce =
      .ok { wsC1ce with sensitivity := some (.divImg (.base "calib") (.base "cref")) } ∧
    ({ wsC1ce with sensitivity := some (.divImg (.base "calib") (.base "cref")) } : Wsp)
      ≠ wsC1ce := by
  refine ⟨rfl, rfl, fun hcontra => ?_⟩
  exact Option.noConfusion (congrArg Wsp.sensitivity hcontra)

/-- Claim C1 (amended): the three stages `get_cblip_correction`,
`get_fieldmap_correction` and `get_motion_correction` begin by checking
`isdone` and, when it is set, return the workspace unchanged (no side
effects), and otherwise perform their work and mark the stage done;
`get_sensitivity_correction` instead returns unchanged when its `sensitivity`
output node is already set and never consults or sets a done flag (and
`get_cblip_correction` discards the estimated field instead of writing its
documented output node, see claim C4).  Calling any of the four stage
functions a second time on the unchanged (successful) result is the identity:
the outputs are identical and no further external computation happens (the
returned workspace, `extCalls` instrumentation included, is the same). -/
theorem C1_amended (fm em : Mat4) (mc : Option Img → Nat → Mat4) (w w' : Wsp) :
    (w.isdone "get_cblip_correction" = true → get_cblip_correction w = .ok w) ∧
    (w.isdone "get_fieldmap_correction" = true →
      get_fieldmap_correction fm em w = .ok w) ∧
    (w.isdone "get_motion_correction" = true → get_motion_correction mc w = .ok w) ∧
    (w.sensitivity.isSome = true → get_sensitivity_correction fm w = .ok w) ∧
    (get_cblip_correction w = .ok w' → get_cblip_correction w' = .ok w') ∧
    (get_fieldmap_correction fm em w = .ok w' →
      get_fieldmap_correction fm em w' = .ok w') ∧
    (get_motion_correction mc w = .ok w' → get_motion_correction mc w' = .ok w') ∧
    (get_sensitivity_correction fm w = .ok w' →
      get_sensitivity_correction fm w' = .ok w') :=
  ⟨get_cblip_early w, get_fieldmap_early fm em w, get_motion_early mc w,
   get_sens_early fm w, get_cblip_idem w w', get_fieldmap_idem fm em w w',
   get_motion_idem mc w w', get_sensitivity_idem fm w w'⟩

def mcC1 : Option Img → Nat → Mat4 := fun _ _ => 1

def wsC1done : Wsp :=
  { done_stages := ["get_cblip_correction", "get_fieldmap_correction",
                    "get_motion_correction"],
    sensitivity := some (.base "sens") }

def wsC1pair : Wsp := { calib := some (.base "calib2"), cref := some (.base "cref2") }

def wsC1pairRes : Wsp :=
  { wsC1pair with sensitivity := some (.divImg (.base "calib2") (.base "cref2")) }

theorem C1_amended_witness :
    get_cblip_correction wsC1done = .ok wsC1done ∧
    get_fieldmap_correction 1 1 wsC1done = .ok wsC1done ∧
    get_motion_correction mcC1 wsC1done = .ok wsC1done ∧
    get_sensitivity_correction 1 wsC1done = .ok wsC1done ∧
    get_sensitivity_correction 1 wsC1pairRes = .ok wsC1pairRes := by
  have T := C1_amended 1 1 mcC1 wsC1done wsC1done
  have T2 := C1_amended 1 1 mcC1 wsC1pair wsC1pairRes
  exact ⟨T.1 rfl, T.2.1 rfl, T.2.2.1 rfl, T.2.2.2.1 rfl,
         T2.2.2.2.2.2.2.2 rfl⟩
